import Mathlib

set_option maxHeartbeats 1000000

/-!
Shallow embedding of the Keycloak authentication core of the ResumeAI API:
the JWT verifier (app/core/auth/keycloak_jwt_handler.py), the admin-token
cache with its retrying request executor (app/core/auth/keycloak_admin.py),
the endpoint configuration (app/core/keycloak_config.py and
app/core/auth/keycloak_config.py, whose URL builders are textually
identical), and the role-revocation helper of the second admin variant
(app/core/keycloak_admin.py).  Network interactions are modelled by
environment functions giving the outcome of the n-th outbound request.
-/

/-- Error values mirroring the exception classes of
app/core/auth/auth_exceptions.py; each constructor carries the HTTPException
detail string of the raise site. -/
inductive AuthError where
  | authException (statusCode : Nat) (detail : String)
  | serverUnavailable (detail : String)
  | tokenExpired (detail : String)
  | forbidden (detail : String)
  | invalidSession (detail : String)
  | invalidAudience (detail : String)
deriving DecidableEq, Repr

/-- The HTTP status code each exception class carries
(auth_exceptions.py: 503, 401, 403, 401, 401). -/
def AuthError.status : AuthError → Nat
  | .authException s _ => s
  | .serverUnavailable _ => 503
  | .tokenExpired _ => 401
  | .forbidden _ => 403
  | .invalidSession _ => 401
  | .invalidAudience _ => 401

/-- KeycloakConfig: the immutable endpoint configuration. -/
structure KeycloakConfig where
  keycloak_url : String
  realm : String
  client_id : String
  client_secret : String
deriving DecidableEq, Repr

/-- Issuer URL: f"{keycloak_url}/realms/{realm}". -/
def KeycloakConfig.issuer (c : KeycloakConfig) : String :=
  c.keycloak_url ++ "/realms/" ++ c.realm

/-- JWKS discovery endpoint. -/
def KeycloakConfig.jwks_url (c : KeycloakConfig) : String :=
  c.keycloak_url ++ "/realms/" ++ c.realm ++ "/protocol/openid-connect/certs"

/-- OpenID Connect token endpoint. -/
def KeycloakConfig.token_url (c : KeycloakConfig) : String :=
  c.keycloak_url ++ "/realms/" ++ c.realm ++ "/protocol/openid-connect/token"

/-- User management endpoint: f"{keycloak_url}/admin/realms/{realm}/users/{user_id}". -/
def KeycloakConfig.user_url (c : KeycloakConfig) (user_id : String) : String :=
  c.keycloak_url ++ "/admin/realms/" ++ c.realm ++ "/users/" ++ user_id

/-- Realm-level role-mapping endpoint for a user. -/
def KeycloakConfig.realm_role_mapping_url (c : KeycloakConfig) (user_id : String) : String :=
  c.keycloak_url ++ "/admin/realms/" ++ c.realm ++ "/users/" ++ user_id ++
    "/role-mappings/realm"

/-- Client-level role-mapping endpoint for a user. -/
def KeycloakConfig.client_role_mapping_url (c : KeycloakConfig)
    (user_id client_id : String) : String :=
  c.keycloak_url ++ "/admin/realms/" ++ c.realm ++ "/users/" ++ user_id ++
    "/role-mappings/clients/" ++ client_id

/-- The decoded JWT payload fields verify_token reads.  exp is the expiry
claim in Unix seconds (absent claim = none), aud the audience claim as a
list (PyJWT promotes a string audience to a singleton; an absent or empty
claim is modelled as the empty list), iss the issuer claim,
realm_access_roles the list at realm_access.roles, resource_access the
per-client role lists at resource_access.{client}.roles. -/
structure TokenPayload where
  sub : String
  preferred_username : Option String
  exp : Option Int
  aud : List String
  iss : Option String
  realm_access_roles : List String
  resource_access : List (String × List String)
deriving DecidableEq, Repr

/-- A presented bearer token: whether jwt.get_unverified_header succeeds,
the kid header claim, the set of JWKS key ids under whose key the token's
RS256 signature verifies, and the payload the signature covers. -/
structure Token where
  headerOk : Bool
  kid : Option String
  sigValidFor : List String
  payload : TokenPayload
deriving DecidableEq, Repr

/-- PyJWT error classes raised by jwt.decode that verify_token catches. -/
inductive JwtError where
  | expiredSignature
  | invalidIssuer
  | invalidAudience
  | missingClaim (name : String)
  | invalidSignature
deriving DecidableEq, Repr

/-- PyJWT exp validation: an exp claim at or before now has expired. -/
def validateExp (p : TokenPayload) (now : Int) : Option JwtError :=
  match p.exp with
  | some e => if e ≤ now then some .expiredSignature else none
  | none => none

/-- PyJWT iss validation against a configured issuer. -/
def validateIss (p : TokenPayload) (issuerCfg : String) : Option JwtError :=
  match p.iss with
  | none => some (.missingClaim "iss")
  | some i => if i = issuerCfg then none else some .invalidIssuer

/-- PyJWT aud validation against audience=[audCfg]. -/
def validateAud (p : TokenPayload) (audCfg : String) : Option JwtError :=
  if p.aud.isEmpty then some (.missingClaim "aud")
  else if audCfg ∈ p.aud then none else some .invalidAudience

/-- jwt.decode(token, public_keys[kid], algorithms=["RS256"],
audience=[client_id], issuer=issuer, options=all-verify): signature check
with the key stored under kid, then the exp, iss and aud claims. -/
def jwtDecode (tok : Token) (kid audCfg issuerCfg : String) (now : Int) :
    Except JwtError TokenPayload :=
  if kid ∈ tok.sigValidFor then
    match validateExp tok.payload now with
    | some e => .error e
    | none =>
      match validateIss tok.payload issuerCfg with
      | some e => .error e
      | none =>
        match validateAud tok.payload audCfg with
        | some e => .error e
        | none => .ok tok.payload
  else .error .invalidSignature

deriving instance DecidableEq for Except

/-- Result of one verify_token call: the returned payload or the raised
exception, together with the number of forced key-cache refreshes
(cache_clear followed by a refetch from the JWKS endpoint) the call made. -/
structure VerifyOutcome where
  result : Except AuthError TokenPayload
  refreshes : Nat
deriving DecidableEq, Repr

/-- The tail of verify_token once the signing key for kid has been resolved:
jwt.decode with each PyJWT error mapped to its raise site in the handler,
then the role check (realm roles plus every per-client role list; any
required role suffices). -/
def verifyDecoded (cfg : KeycloakConfig) (refreshes : Nat) (now : Int)
    (tok : Token) (kid : String) (roles : Option (List String)) : VerifyOutcome :=
  match jwtDecode tok kid cfg.client_id cfg.issuer now with
  | .error .expiredSignature => ⟨.error (.tokenExpired "Token has expired"), refreshes⟩
  | .error .invalidAudience =>
      ⟨.error (.invalidAudience ("Token audience does not match client: " ++ cfg.client_id)),
        refreshes⟩
  | .error .invalidIssuer => ⟨.error (.invalidSession "Token issuer is invalid"), refreshes⟩
  | .error (.missingClaim name) =>
      ⟨.error (.invalidSession ("Invalid token: missing required claim " ++ name)), refreshes⟩
  | .error .invalidSignature =>
      ⟨.error (.invalidSession "Invalid token: signature verification failed"), refreshes⟩
  | .ok payload =>
    match roles with
    | none => ⟨.ok payload, refreshes⟩
    | some rs =>
      if rs.isEmpty then ⟨.ok payload, refreshes⟩
      else
        let userRoles :=
          payload.realm_access_roles ++ (payload.resource_access.map Prod.snd).flatten
        if rs.any (fun r => userRoles.contains r) then ⟨.ok payload, refreshes⟩
        else
          ⟨.error (.forbidden ("Required role(s): " ++ String.intercalate ", " rs)),
            refreshes⟩

/-- KeycloakJWTHandler.verify_token (app/core/auth/keycloak_jwt_handler.py).
cachedKids is the key-id set held by the alru_cache of _get_public_keys when
the call starts, freshKids the key-id set a refetch from the JWKS endpoint
returns; refreshes counts the forced refreshes performed by this call. -/
def verify_token (cfg : KeycloakConfig) (cachedKids freshKids : List String)
    (now : Int) (tok : Token) (roles : Option (List String)) : VerifyOutcome :=
  if tok.headerOk then
    match tok.kid with
    | none => ⟨.error (.invalidSession "Token missing key ID"), 0⟩
    | some kid =>
      if kid ∈ cachedKids then verifyDecoded cfg 0 now tok kid roles
      else if kid ∈ freshKids then verifyDecoded cfg 1 now tok kid roles
      else ⟨.error (.invalidSession "Public key not found for token"), 1⟩
  else ⟨.error (.invalidSession "Invalid token: header could not be decoded"), 0⟩

/-- Outcome of one POST to the token endpoint inside _get_admin_token: a
token, a ClientResponseError from raise_for_status, or a connection-level
failure. -/
inductive FetchOutcome where
  | ok (tok : String)
  | httpError (status : Nat)
  | connError
deriving DecidableEq, Repr

/-- The admin-token cache state: the alru_cache slot of _get_admin_token and
the number of token-endpoint fetches performed so far. -/
structure AdminState where
  tokenCache : Option String
  fetchCount : Nat
deriving DecidableEq, Repr

/-- _get_admin_token under alru_cache(maxsize=1): return the cached token if
present, otherwise POST to the token endpoint (fetchTok gives the outcome of
the n-th fetch) and cache the result on success. -/
def getAdminToken (fetchTok : Nat → FetchOutcome) (s : AdminState) :
    FetchOutcome × AdminState :=
  match s.tokenCache with
  | some t => (.ok t, s)
  | none =>
    match fetchTok s.fetchCount with
    | .ok t => (.ok t, ⟨some t, s.fetchCount + 1⟩)
    | .httpError c => (.httpError c, ⟨none, s.fetchCount + 1⟩)
    | .connError => (.connError, ⟨none, s.fetchCount + 1⟩)

/-- self.max_retries. -/
def maxRetries : Nat := 3

/-- self.retry_delay, in seconds. -/
def retryDelay : Nat := 1

/-- Outcome of one management HTTP request, as observed through aiohttp: a
response passing raise_for_status (status below 400) with its parsed JSON
body, a ClientResponseError with its status, a connection-level failure or
timeout, or another aiohttp.ClientError. -/
inductive HttpOutcome where
  | ok (status : Nat) (data : Option String)
  | httpError (status : Nat)
  | connError
  | otherClientError
deriving DecidableEq, Repr

/-- Result of _make_request_with_retry: the returned response dict, a raised
AuthException, or an uncaught Python TypeError.  The TypeError arises because
the second except clause names aiohttp.ClientTimeout, which is a
configuration dataclass and not an exception class, so CPython's validation
of the except tuple ("catching classes that do not inherit from BaseException
is not allowed") raises for every exception that is not a
ClientResponseError, before any element of the tuple can match. -/
inductive ReqResult where
  | success (status : Nat) (data : Option String)
  | failure (e : AuthError)
  | pythonTypeError
deriving DecidableEq, Repr

/-- One full run of _make_request_with_retry: its result, the admin-token
state it leaves behind, the number of management requests issued, and the
backoff sleeps (in seconds) performed, in order. -/
structure RunTrace where
  result : ReqResult
  finalState : AdminState
  calls : Nat
  sleeps : List Nat
deriving DecidableEq, Repr

/-- What the ClientResponseError handler does next. -/
inductive StatusAction where
  | retryCleared
  | fail (e : AuthError)
deriving DecidableEq, Repr

/-- The except aiohttp.ClientResponseError branch of _make_request_with_retry:
401/403 clears the token cache and retries while iterations remain, else
raises AuthTokenExpiredException; 404 raises AuthException(404); status 500
and above raises AuthServerUnavailableException; any other status raises a
generic AuthException with that status.  attemptsLeft is the number of loop
iterations remaining after the current one (the code's
attempt < self.max_retries - 1). -/
def handleErrorStatus (s : Nat) (attemptsLeft : Nat) : StatusAction :=
  if s = 401 ∨ s = 403 then
    if 0 < attemptsLeft then .retryCleared
    else .fail (.tokenExpired "Token has expired")
  else if s = 404 then .fail (.authException 404 "Resource not found")
  else if 500 ≤ s then .fail (.serverUnavailable "Authentication server unavailable")
  else .fail (.authException s "Keycloak error")

/-- The attempt loop of _make_request_with_retry.  fuel is the number of
iterations range(self.max_retries) still has, calls counts management
requests issued so far, respond calls gives the outcome of the next one.
Each iteration first obtains a token through the cache (a ClientResponseError
from that fetch lands in the same handler chain); connection-level failures
and other ClientErrors reach the broken except tuple and surface as an
uncaught TypeError, so no backoff sleep is ever reached and sleeps can only
stay empty. -/
def requestLoop (fetchTok : Nat → FetchOutcome) (respond : Nat → HttpOutcome) :
    Nat → AdminState → Nat → List Nat → RunTrace
  | 0, st, calls, sleeps =>
      ⟨.failure (.serverUnavailable "All retry attempts failed"), st, calls, sleeps⟩
  | fuel + 1, st, calls, sleeps =>
    match getAdminToken fetchTok st with
    | (.httpError s, st1) =>
      match handleErrorStatus s fuel with
      | .retryCleared => requestLoop fetchTok respond fuel ⟨none, st1.fetchCount⟩ calls sleeps
      | .fail e => ⟨.failure e, st1, calls, sleeps⟩
    | (.connError, st1) => ⟨.pythonTypeError, st1, calls, sleeps⟩
    | (.ok _, st1) =>
      match respond calls with
      | .ok status data => ⟨.success status data, st1, calls + 1, sleeps⟩
      | .httpError s =>
        match handleErrorStatus s fuel with
        | .retryCleared =>
            requestLoop fetchTok respond fuel ⟨none, st1.fetchCount⟩ (calls + 1) sleeps
        | .fail e => ⟨.failure e, st1, calls + 1, sleeps⟩
      | .connError => ⟨.pythonTypeError, st1, calls + 1, sleeps⟩
      | .otherClientError => ⟨.pythonTypeError, st1, calls + 1, sleeps⟩

/-- KeycloakAdmin._make_request_with_retry (app/core/auth/keycloak_admin.py),
started with the given admin-token cache state. -/
def makeRequestWithRetry (fetchTok : Nat → FetchOutcome) (respond : Nat → HttpOutcome)
    (st : AdminState) : RunTrace :=
  requestLoop fetchTok respond maxRetries st 0 []

/-- Keycloak user representation, reduced to the one field update_user_info
reads: the custom attribute map (a user record without an attributes key is
modelled as the empty list). -/
structure UserRecord where
  attributes : List (String × List String)
deriving DecidableEq, Repr

/-- The JSON body update_user_info assembles before its PUT. -/
structure UpdatePayload where
  firstName : Option String
  lastName : Option String
  email : Option String
  attributes : Option (List (String × List String))
deriving DecidableEq, Repr

/-- Python truthiness of the payload dict: empty iff no key was added. -/
def UpdatePayload.isEmpty (p : UpdatePayload) : Bool :=
  p.firstName.isNone && p.lastName.isNone && p.email.isNone && p.attributes.isNone

/-- Python dict assignment d[k] = v on an association list: replace in place
if the key exists, else append. -/
def dictSet (attrs : List (String × List String)) (k : String) (v : List String) :
    List (String × List String) :=
  if attrs.any (fun kv => kv.1 = k) then
    attrs.map (fun kv => if kv.1 = k then (k, v) else kv)
  else attrs ++ [(k, v)]

/-- KeycloakAdmin.update_user_info (app/core/auth/keycloak_admin.py),
modelled from the point where its initial GET of the user record has
succeeded with user as the fetched representation; putStatus is the status
the PUT request would return if issued.  Returns the call result together
with whether a PUT request was issued at all. -/
def update_user_info (user : UserRecord)
    (first_name last_name email phone_number : Option String)
    (putStatus : Nat) : Except AuthError Bool × Bool :=
  let payload0 : UpdatePayload :=
    { firstName := first_name, lastName := last_name, email := email, attributes := none }
  let attrs := user.attributes
  let payload :=
    match phone_number with
    | some p => { payload0 with attributes := some (dictSet attrs "phone_number" [p]) }
    | none => if attrs.isEmpty then payload0 else { payload0 with attributes := some attrs }
  if payload.isEmpty then (.ok true, false)
  else if putStatus = 200 ∨ putStatus = 204 then (.ok true, true)
  else (.error (.authException putStatus "Failed to update user"), true)

/-- Python str() of an Optional[str] as an f-string interpolates it:
None renders as the literal string "None". -/
def pyStrOpt : Option String → String
  | some s => s
  | none => "None"

/-- The DELETE target URL computed by KeycloakAdmin.revoke_role_from_user
(app/core/keycloak_admin.py, line 374): it always calls
client_role_mapping_url(user_id, client_id), including when client_id is
None. -/
def revoke_role_from_user_url (c : KeycloakConfig) (user_id : String)
    (client_id : Option String) : String :=
  c.client_role_mapping_url user_id (pyStrOpt client_id)

/-! Concrete fixtures used by witnesses and counterexamples. -/

/-- The default configuration values of KeycloakConfig.__init__. -/
def testConfig : KeycloakConfig :=
  ⟨"http://localhost:8080", "resume-flow", "resume-flow-api", ""⟩

/-- A payload with expiry 1000, matching audience and issuer, realm role
"user" and client role "view" under client "acct". -/
def testPayload : TokenPayload :=
  ⟨"u1", some "alice", some 1000, ["resume-flow-api"], some testConfig.issuer,
    ["user"], [("acct", ["view"])]⟩

/-- A well-formed token carrying testPayload, signed under key id "k1". -/
def testToken : Token := ⟨true, some "k1", ["k1"], testPayload⟩

/-- A token-endpoint environment handing out the distinct tokens
"t0", "t1", "t2", ... on successive fetches. -/
def fetchTokSeq : Nat → FetchOutcome :=
  fun n => .ok (if n = 0 then "t0" else if n = 1 then "t1" else "t2")

/-- A management endpoint answering 401 to every request. -/
def alwaysUnauthorized : Nat → HttpOutcome := fun _ => .httpError 401

/-- A management endpoint whose every request hits a connection failure or
timeout. -/
def alwaysConnFail : Nat → HttpOutcome := fun _ => .connError

/-- A management endpoint answering 404 to every request. -/
def always404 : Nat → HttpOutcome := fun _ => .httpError 404

/-- A management endpoint answering 500 to every request. -/
def always500 : Nat → HttpOutcome := fun _ => .httpError 500

/-! Theorems. -/

/-- The refresh counter of the post-key-resolution tail is exactly the value
passed in: no branch of decode, claim validation or role checking performs a
further key-cache refresh. -/
theorem verifyDecoded_refreshes (cfg : KeycloakConfig) (r : Nat) (now : Int)
    (tok : Token) (kid : String) (roles : Option (List String)) :
    (verifyDecoded cfg r now tok kid roles).refreshes = r := by
  unfold verifyDecoded
  repeat' split
  all_goals try rfl
  all_goals (dsimp only; split <;> rfl)

/-- C1: when the token's key id is absent from the cached public-key set,
verify_token performs exactly one forced cache refresh and retries the
lookup once; if the key id is still absent it fails with the unknown-signing-
key error (AuthInvalidSessionException "Public key not found for token"),
and no call of verify_token ever performs a second refresh. -/
theorem C1_bounded_key_refresh
    (cfg : KeycloakConfig) (cachedKids freshKids : List String) (now : Int)
    (tok : Token) (roles : Option (List String)) (k : String)
    (hhdr : tok.headerOk = true) (hkid : tok.kid = some k)
    (habs : k ∉ cachedKids) :
    (verify_token cfg cachedKids freshKids now tok roles).refreshes = 1 ∧
    (k ∉ freshKids →
      (verify_token cfg cachedKids freshKids now tok roles).result =
        .error (.invalidSession "Public key not found for token")) ∧
    (∀ (ck fk : List String) (tok2 : Token) (roles2 : Option (List String)),
      (verify_token cfg ck fk now tok2 roles2).refreshes ≤ 1) := by
  refine ⟨?_, ?_, ?_⟩
  · unfold verify_token
    simp only [hhdr, if_true, hkid, habs, if_false, ite_false]
    split
    · exact verifyDecoded_refreshes ..
    · rfl
  · intro hfr
    unfold verify_token
    simp [hhdr, hkid, habs, hfr]
  · intro ck fk tok2 roles2
    unfold verify_token
    repeat' split
    all_goals simp [verifyDecoded_refreshes]

/-- Witness for C1 at the concrete fixtures: empty cached and refreshed key
sets, a token signed under key id "k1". -/
theorem C1_bounded_key_refresh_witness :
    (verify_token testConfig [] [] 0 testToken none).refreshes = 1 ∧
    ("k1" ∉ ([] : List String) →
      (verify_token testConfig [] [] 0 testToken none).result =
        .error (.invalidSession "Public key not found for token")) ∧
    (∀ (ck fk : List String) (tok2 : Token) (roles2 : Option (List String)),
      (verify_token testConfig ck fk 0 tok2 roles2).refreshes ≤ 1) :=
  C1_bounded_key_refresh testConfig [] [] 0 testToken none "k1" rfl rfl (by decide)

/-- C2: once the signing key resolves, each standard-claim failure mode
yields its own error value: a past exp claim raises
AuthTokenExpiredException, an audience claim not containing the configured
client id raises AuthInvalidAudienceException, and an issuer claim differing
from the configured issuer raises AuthInvalidSessionException with the
dedicated detail "Token issuer is invalid"; the three error values are
pairwise distinct. -/
theorem C2_distinct_claim_errors
    (cfg : KeycloakConfig) (cachedKids freshKids : List String) (now : Int)
    (tok : Token) (roles : Option (List String)) (k : String)
    (hhdr : tok.headerOk = true) (hkid : tok.kid = some k)
    (hkey : k ∈ cachedKids) (hsig : k ∈ tok.sigValidFor) :
    (∀ e : Int, tok.payload.exp = some e → e ≤ now →
      (verify_token cfg cachedKids freshKids now tok roles).result =
        .error (.tokenExpired "Token has expired")) ∧
    ((∀ e : Int, tok.payload.exp = some e → now < e) →
      tok.payload.iss = some cfg.issuer →
      tok.payload.aud ≠ [] → cfg.client_id ∉ tok.payload.aud →
      (verify_token cfg cachedKids freshKids now tok roles).result =
        .error (.invalidAudience ("Token audience does not match client: " ++ cfg.client_id))) ∧
    ((∀ e : Int, tok.payload.exp = some e → now < e) →
      (∀ i : String, tok.payload.iss = some i → i ≠ cfg.issuer) →
      tok.payload.iss.isSome = true →
      cfg.client_id ∈ tok.payload.aud →
      (verify_token cfg cachedKids freshKids now tok roles).result =
        .error (.invalidSession "Token issuer is invalid")) ∧
    ((AuthError.tokenExpired "Token has expired") ≠
      .invalidAudience ("Token audience does not match client: " ++ cfg.client_id)) ∧
    ((AuthError.tokenExpired "Token has expired") ≠
      .invalidSession "Token issuer is invalid") ∧
    ((AuthError.invalidAudience ("Token audience does not match client: " ++ cfg.client_id)) ≠
      .invalidSession "Token issuer is invalid") := by
  have hred : verify_token cfg cachedKids freshKids now tok roles =
      verifyDecoded cfg 0 now tok k roles := by
    unfold verify_token
    simp [hhdr, hkid, hkey]
  refine ⟨?_, ?_, ?_, by simp, by simp, by simp⟩
  · intro e he hle
    rw [hred]
    unfold verifyDecoded jwtDecode validateExp
    simp [hsig, he, hle]
  · intro hexp hiss haudne haudnm
    have hexpn : validateExp tok.payload now = none := by
      unfold validateExp
      cases hx : tok.payload.exp with
      | none => rfl
      | some e => simp [not_le.mpr (hexp e hx)]
    have hissn : validateIss tok.payload cfg.issuer = none := by
      unfold validateIss
      simp [hiss]
    rw [hred]
    unfold verifyDecoded jwtDecode
    rw [hexpn, hissn]
    unfold validateAud
    simp [hsig, haudne, haudnm]
  · intro hexp hissne hisss haud
    have hexpn : validateExp tok.payload now = none := by
      unfold validateExp
      cases hx : tok.payload.exp with
      | none => rfl
      | some e => simp [not_le.mpr (hexp e hx)]
    obtain ⟨i, hi⟩ := Option.isSome_iff_exists.mp hisss
    have hissn : validateIss tok.payload cfg.issuer = some .invalidIssuer := by
      unfold validateIss
      simp [hi, hissne i hi]
    rw [hred]
    unfold verifyDecoded jwtDecode
    rw [hexpn, hissn]
    simp [hsig]

/-- Witness for C2 at the concrete fixtures: testToken observed at time
2000, past its expiry 1000. -/
theorem C2_distinct_claim_errors_witness :
    (∀ e : Int, testToken.payload.exp = some e → e ≤ 2000 →
      (verify_token testConfig ["k1"] [] 2000 testToken none).result =
        .error (.tokenExpired "Token has expired")) ∧
    ((∀ e : Int, testToken.payload.exp = some e → 2000 < e) →
      testToken.payload.iss = some testConfig.issuer →
      testToken.payload.aud ≠ [] → testConfig.client_id ∉ testToken.payload.aud →
      (verify_token testConfig ["k1"] [] 2000 testToken none).result =
        .error (.invalidAudience ("Token audience does not match client: " ++ testConfig.client_id))) ∧
    ((∀ e : Int, testToken.payload.exp = some e → 2000 < e) →
      (∀ i : String, testToken.payload.iss = some i → i ≠ testConfig.issuer) →
      testToken.payload.iss.isSome = true →
      testConfig.client_id ∈ testToken.payload.aud →
      (verify_token testConfig ["k1"] [] 2000 testToken none).result =
        .error (.invalidSession "Token issuer is invalid")) ∧
    ((AuthError.tokenExpired "Token has expired") ≠
      .invalidAudience ("Token audience does not match client: " ++ testConfig.client_id)) ∧
    ((AuthError.tokenExpired "Token has expired") ≠
      .invalidSession "Token issuer is invalid") ∧
    ((AuthError.invalidAudience ("Token audience does not match client: " ++ testConfig.client_id)) ≠
      .invalidSession "Token issuer is invalid") :=
  C2_distinct_claim_errors testConfig ["k1"] [] 2000 testToken none "k1"
    rfl rfl (by decide) (by decide)

/-- C3: with a non-empty required-role list and all standard checks passing,
verify_token pools the realm-level roles with every per-client role list of
resource_access and fails with AuthForbiddenException exactly when no
required role occurs in that pool; one shared role suffices for success. -/
theorem C3_role_union_any_of
    (cfg : KeycloakConfig) (cachedKids freshKids : List String) (now : Int)
    (tok : Token) (rs : List String) (k : String)
    (hhdr : tok.headerOk = true) (hkid : tok.kid = some k)
    (hkey : k ∈ cachedKids) (hsig : k ∈ tok.sigValidFor)
    (hexp : ∀ e : Int, tok.payload.exp = some e → now < e)
    (hiss : tok.payload.iss = some cfg.issuer)
    (haud : cfg.client_id ∈ tok.payload.aud)
    (hne : rs ≠ []) :
    ((verify_token cfg cachedKids freshKids now tok (some rs)).result =
        .error (.forbidden ("Required role(s): " ++ String.intercalate ", " rs)) ↔
      ∀ r ∈ rs,
        r ∉ tok.payload.realm_access_roles ++
          (tok.payload.resource_access.map Prod.snd).flatten) ∧
    ((∃ r ∈ rs,
        r ∈ tok.payload.realm_access_roles ++
          (tok.payload.resource_access.map Prod.snd).flatten) →
      (verify_token cfg cachedKids freshKids now tok (some rs)).result =
        .ok tok.payload) := by
  have hexpn : validateExp tok.payload now = none := by
    unfold validateExp
    cases hx : tok.payload.exp with
    | none => rfl
    | some e => simp [not_le.mpr (hexp e hx)]
  have hissn : validateIss tok.payload cfg.issuer = none := by
    unfold validateIss
    simp [hiss]
  have haudn : validateAud tok.payload cfg.client_id = none := by
    unfold validateAud
    have hbe : ¬ tok.payload.aud.isEmpty = true := by
      cases hx : tok.payload.aud with
      | nil => rw [hx] at haud; exact absurd haud (List.not_mem_nil _)
      | cons a l => simp
    simp [hbe, haud]
  have hdec : jwtDecode tok k cfg.client_id cfg.issuer now = .ok tok.payload := by
    unfold jwtDecode
    rw [hexpn, hissn, haudn]
    simp [hsig]
  have hred : verify_token cfg cachedKids freshKids now tok (some rs) =
      verifyDecoded cfg 0 now tok k (some rs) := by
    unfold verify_token
    simp [hhdr, hkid, hkey]
  have hnemp : rs.isEmpty = false := by
    cases rs with
    | nil => exact absurd rfl hne
    | cons a l => rfl
  rw [hred]
  unfold verifyDecoded
  rw [hdec]
  simp only [hnemp, Bool.false_eq_true, if_false]
  by_cases hany : (rs.any fun r =>
      (tok.payload.realm_access_roles ++
        (tok.payload.resource_access.map Prod.snd).flatten).contains r) = true
  · simp only [if_pos hany]
    refine ⟨⟨fun h => absurd h (by simp), fun hall => ?_⟩, fun _ => trivial⟩
    obtain ⟨r, h1, h2⟩ := List.any_eq_true.mp hany
    exact absurd (by simpa [List.elem_iff] using h2) (hall r h1)
  · simp only [if_neg hany]
    refine ⟨⟨fun _ r h1 hmem => ?_, fun _ => trivial⟩, fun hex => ?_⟩
    · exact hany (List.any_eq_true.mpr ⟨r, h1, by simpa [List.elem_iff] using hmem⟩)
    · obtain ⟨r, h1, h2⟩ := hex
      exact absurd (List.any_eq_true.mpr ⟨r, h1, by simpa [List.elem_iff] using h2⟩) hany

/-- Witness for C3: testToken carries realm role "user"; the required-role
list "user", "admin" succeeds under any-of semantics. -/
theorem C3_role_union_any_of_witness :
    ((verify_token testConfig ["k1"] [] 0 testToken (some ["user", "admin"])).result =
        .error (.forbidden ("Required role(s): " ++ String.intercalate ", " ["user", "admin"])) ↔
      ∀ r ∈ ["user", "admin"],
        r ∉ testToken.payload.realm_access_roles ++
          (testToken.payload.resource_access.map Prod.snd).flatten) ∧
    ((∃ r ∈ ["user", "admin"],
        r ∈ testToken.payload.realm_access_roles ++
          (testToken.payload.resource_access.map Prod.snd).flatten) →
      (verify_token testConfig ["k1"] [] 0 testToken (some ["user", "admin"])).result =
        .ok testToken.payload) :=
  C3_role_union_any_of testConfig ["k1"] [] 0 testToken ["user", "admin"] "k1"
    rfl rfl (by decide) (by decide) (by intro e he; cases he; decide) rfl (by decide) (by decide)

/-- Counterexample to C4 as stated: with the management endpoint answering
401 to every request, the call fails with AuthTokenExpiredException after
three attempts, yet the final admin-token cache still holds the third
fetched token "t2" — the 401 received on the last attempt did not invalidate
the cached token, contradicting "every HTTP 401 or 403 response causes the
cached admin token to be invalidated". -/
theorem C4_counterexample :
    (makeRequestWithRetry fetchTokSeq alwaysUnauthorized ⟨none, 0⟩).result =
      .failure (.tokenExpired "Token has expired") ∧
    (makeRequestWithRetry fetchTokSeq alwaysUnauthorized ⟨none, 0⟩).finalState.tokenCache =
      some "t2" ∧
    (makeRequestWithRetry fetchTokSeq alwaysUnauthorized ⟨none, 0⟩).calls = 3 :=
  ⟨rfl, rfl, rfl⟩

/-- C4 amended: within one _make_request_with_retry call (maxRetries = 3), a
401/403 response with attempts remaining clears the cached admin token and
retries immediately — same sleeps list, so no backoff — with the next attempt
fetching a fresh token; a 401/403 on the last attempt fails the call with
AuthTokenExpiredException and leaves the cached token in place. -/
theorem C4_amended_401_behavior
    (fetchTok : Nat → FetchOutcome) (respond : Nat → HttpOutcome)
    (fuel calls : Nat) (st st1 : AdminState) (sleeps : List Nat) (t : String) (s : Nat)
    (hget : getAdminToken fetchTok st = (.ok t, st1))
    (hs : s = 401 ∨ s = 403)
    (hresp : respond calls = .httpError s) :
    maxRetries = 3 ∧
    (0 < fuel →
      requestLoop fetchTok respond (fuel + 1) st calls sleeps =
        requestLoop fetchTok respond fuel ⟨none, st1.fetchCount⟩ (calls + 1) sleeps) ∧
    (fuel = 0 →
      requestLoop fetchTok respond (fuel + 1) st calls sleeps =
        ⟨.failure (.tokenExpired "Token has expired"), st1, calls + 1, sleeps⟩) := by
  have hact : ∀ f : Nat, 0 < f → handleErrorStatus s f = .retryCleared := by
    intro f hf
    unfold handleErrorStatus
    simp [hs, hf]
  have hact0 : handleErrorStatus s 0 = .fail (.tokenExpired "Token has expired") := by
    unfold handleErrorStatus
    simp [hs]
  refine ⟨rfl, ?_, ?_⟩
  · intro hf
    conv_lhs => rw [requestLoop]
    rw [hget]
    simp only [hresp, hact fuel hf]
  · intro hf0
    subst hf0
    conv_lhs => rw [requestLoop]
    rw [hget]
    simp only [hresp, hact0]

/-- Witness for the amended C4 with one attempt of fuel left after the
current one and a concrete 401 response. -/
theorem C4_amended_401_behavior_witness :
    maxRetries = 3 ∧
    (0 < 1 →
      requestLoop fetchTokSeq alwaysUnauthorized (1 + 1) ⟨none, 0⟩ 0 [] =
        requestLoop fetchTokSeq alwaysUnauthorized 1 ⟨none, 1⟩ 1 []) ∧
    (1 = 0 →
      requestLoop fetchTokSeq alwaysUnauthorized (1 + 1) ⟨none, 0⟩ 0 [] =
        ⟨.failure (.tokenExpired "Token has expired"), ⟨some "t0", 1⟩, 1, []⟩) :=
  C4_amended_401_behavior fetchTokSeq alwaysUnauthorized 1 0 ⟨none, 0⟩ ⟨some "t0", 1⟩
    [] "t0" 401 rfl (Or.inl rfl) rfl

/-- C5: evaluation of the code at the failing input.  With every management
request hitting a connection failure or timeout, _make_request_with_retry
performs one request, sleeps never, retries never, and ends in an uncaught
TypeError rather than AuthServerUnavailableException: the except clause
meant to drive backoff names aiohttp.ClientTimeout, which is not an
exception class, so its tuple fails CPython's except-clause validation. -/
theorem C5_connection_failure_typeerror :
    makeRequestWithRetry fetchTokSeq alwaysConnFail ⟨none, 0⟩ =
      ⟨.pythonTypeError, ⟨some "t0", 1⟩, 1, []⟩ ∧
    (makeRequestWithRetry fetchTokSeq alwaysConnFail ⟨none, 0⟩).sleeps = [] ∧
    (makeRequestWithRetry fetchTokSeq alwaysConnFail ⟨none, 0⟩).calls = 1 ∧
    (makeRequestWithRetry fetchTokSeq alwaysConnFail ⟨none, 0⟩).result ≠
      .failure (.serverUnavailable "All retry attempts failed") :=
  ⟨rfl, rfl, rfl, by decide⟩

/-- C6: a 404 response on the first attempt fails the call immediately with
AuthException(404, "Resource not found"), with exactly one management
request issued and no retry or sleep. -/
theorem C6_404_fails_immediately
    (fetchTok : Nat → FetchOutcome) (respond : Nat → HttpOutcome)
    (st st1 : AdminState) (t : String)
    (hget : getAdminToken fetchTok st = (.ok t, st1))
    (hresp : respond 0 = .httpError 404) :
    makeRequestWithRetry fetchTok respond st =
      ⟨.failure (.authException 404 "Resource not found"), st1, 1, []⟩ := by
  unfold makeRequestWithRetry maxRetries
  rw [requestLoop, hget]
  simp only [hresp]
  rfl

/-- Witness for C6 at the concrete fixtures. -/
theorem C6_404_fails_immediately_witness :
    makeRequestWithRetry fetchTokSeq always404 ⟨none, 0⟩ =
      ⟨.failure (.authException 404 "Resource not found"), ⟨some "t0", 1⟩, 1, []⟩ :=
  C6_404_fails_immediately fetchTokSeq always404 ⟨none, 0⟩ ⟨some "t0", 1⟩ "t0" rfl rfl

/-- Counterexample to C7 as stated: a 500 response makes the call fail with
AuthServerUnavailableException, whose HTTP-facing status is 503 — the very
identity-provider-unavailable kind — not a distinct 500/502-class
UpstreamServerError kind. -/
theorem C7_counterexample :
    (makeRequestWithRetry fetchTokSeq always500 ⟨none, 0⟩).result =
      .failure (.serverUnavailable "Authentication server unavailable") ∧
    (AuthError.serverUnavailable "Authentication server unavailable").status = 503 ∧
    (AuthError.serverUnavailable "Authentication server unavailable").status ≠ 500 ∧
    (AuthError.serverUnavailable "Authentication server unavailable").status ≠ 502 :=
  ⟨rfl, rfl, by decide, by decide⟩

/-- C7 amended: a response with status at least 500 fails the call
immediately — one request, no retry, no sleep — with
AuthServerUnavailableException, the same 503 kind used for
identity-provider-unavailable failures rather than a distinct 500/502
upstream-error kind. -/
theorem C7_amended_5xx_fail_fast
    (fetchTok : Nat → FetchOutcome) (respond : Nat → HttpOutcome)
    (st st1 : AdminState) (t : String) (s : Nat)
    (hget : getAdminToken fetchTok st = (.ok t, st1))
    (h5 : 500 ≤ s)
    (hresp : respond 0 = .httpError s) :
    makeRequestWithRetry fetchTok respond st =
      ⟨.failure (.serverUnavailable "Authentication server unavailable"), st1, 1, []⟩ := by
  have h1 : ¬ (s = 401 ∨ s = 403) := by omega
  have h2 : ¬ s = 404 := by omega
  unfold makeRequestWithRetry maxRetries
  rw [requestLoop, hget]
  simp only [hresp]
  unfold handleErrorStatus
  simp [h1, h2, h5]

/-- Witness for the amended C7 with a concrete 500 response. -/
theorem C7_amended_5xx_fail_fast_witness :
    makeRequestWithRetry fetchTokSeq always500 ⟨none, 0⟩ =
      ⟨.failure (.serverUnavailable "Authentication server unavailable"),
        ⟨some "t0", 1⟩, 1, []⟩ :=
  C7_amended_5xx_fail_fast fetchTokSeq always500 ⟨none, 0⟩ ⟨some "t0", 1⟩ "t0" 500
    rfl (by decide) rfl

/-- C8: two successive _get_admin_token calls with no intervening
invalidation return the identical cached token and perform exactly one
token-endpoint fetch (the fetch counter stays at 1). -/
theorem C8_getToken_idempotent
    (fetchTok : Nat → FetchOutcome) (t : String)
    (hfetch : fetchTok 0 = .ok t) :
    getAdminToken fetchTok ⟨none, 0⟩ = (.ok t, ⟨some t, 1⟩) ∧
    getAdminToken fetchTok (getAdminToken fetchTok ⟨none, 0⟩).2 = (.ok t, ⟨some t, 1⟩) := by
  have h1 : getAdminToken fetchTok ⟨none, 0⟩ = (.ok t, ⟨some t, 1⟩) := by
    unfold getAdminToken
    rw [hfetch]
  refine ⟨h1, ?_⟩
  rw [h1]
  rfl

/-- Witness for C8 at the concrete token-endpoint fixture. -/
theorem C8_getToken_idempotent_witness :
    getAdminToken fetchTokSeq ⟨none, 0⟩ = (.ok "t0", ⟨some "t0", 1⟩) ∧
    getAdminToken fetchTokSeq (getAdminToken fetchTokSeq ⟨none, 0⟩).2 =
      (.ok "t0", ⟨some "t0", 1⟩) :=
  C8_getToken_idempotent fetchTokSeq "t0" rfl

/-- C9: update_user_info with no update fields and a fetched user record
without attributes returns True having issued no PUT request, leaving the
upstream record untouched. -/
theorem C9_all_none_no_put (putStatus : Nat) :
    update_user_info ⟨[]⟩ none none none none putStatus = (.ok true, false) := rfl

/-- C10: revoke_role_from_user always targets the client-level role-mapping
URL; with client_id = None the Python f-string renders the path segment
"clients/None", which differs from the realm role-mapping endpoint. -/
theorem C10_revoke_targets_client_url (cfg : KeycloakConfig) (uid : String) :
    revoke_role_from_user_url cfg uid none =
      cfg.keycloak_url ++ "/admin/realms/" ++ cfg.realm ++ "/users/" ++ uid ++
        "/role-mappings/clients/None" ∧
    revoke_role_from_user_url cfg uid none ≠ cfg.realm_role_mapping_url uid := by
  constructor
  · rw [show revoke_role_from_user_url cfg uid none =
        (cfg.keycloak_url ++ "/admin/realms/" ++ cfg.realm ++ "/users/" ++ uid ++
          "/role-mappings/clients/") ++ "None" from rfl]
    rw [String.append_assoc]
    rfl
  · intro h
    have hl := congrArg String.length h
    simp only [revoke_role_from_user_url, pyStrOpt, KeycloakConfig.client_role_mapping_url,
      KeycloakConfig.realm_role_mapping_url, String.length_append] at hl
    have e1 : ("/role-mappings/clients/" : String).length = 23 := rfl
    have e2 : ("None" : String).length = 4 := rfl
    have e3 : ("/role-mappings/realm" : String).length = 20 := rfl
    omega
